import Mathlib

/-!
Shallow embedding of the STM32F407 UART bootloader command layer
(`src/Bootloader/Core/Src/BL.c` together with `BL.h` / `BL_private.h`).

The hardware peripherals (CRC unit, flash controller, UART, device-identity
registers) are external collaborators: they are modelled by a `Device` record
of oracle functions, and every observable action of a handler (UART transmit,
flash unlock/lock/erase/program, direct memory store, GPIO write, jump) is
recorded as an `Event` in the order the C code performs it.  A command packet
is modelled as the memory surrounding the receive buffer, a total function
`Int → Nat` giving the byte at each offset from the start of the packet
(offsets may be negative or past the end because the C code does unchecked
pointer arithmetic with the wrapped 8-bit length field).
-/

namespace BL

/-- Constant from `BL_private.h`: CRC verification passed. -/
def CRC_SUCCESS : Nat := 1

/-- Constant from `BL_private.h`: CRC verification failed. -/
def CRC_FAIL : Nat := 0

/-- Constant from `BL_private.h`: bootloader version. -/
def BL_VERSION : Nat := 1

/-- Constant from `BL_private.h`: address is valid. -/
def VALID_ADDRESS : Nat := 1

/-- Constant from `BL_private.h`: address is not valid. -/
def NOT_VALID_ADDRESS : Nat := 0

/-- Constant from `BL_private.h`: total number of flash sectors. -/
def NUMBER_OF_SECTORS : Nat := 12

/-- Constant from `BL_private.h`: sentinel sector number requesting mass erase. -/
def MASS_ERASE : Nat := 0xFF

/-- Constant from `BL_private.h`: mem-write reported error status. -/
def WRITING_ERROR : Nat := 0

/-- Constant from `BL.h`: ACK marker byte. -/
def BL_ACK : Nat := 0xA5

/-- Constant from `BL.h`: NACK byte. -/
def BL_NACK : Nat := 0x7F

/-- Opcode from `BL.h` (spelling kept from the source). -/
def BL_GET_VESRION : Nat := 0x51

/-- Opcode from `BL.h`. -/
def BL_GET_HELP : Nat := 0x52

/-- Opcode from `BL.h`. -/
def BL_GET_CID : Nat := 0x53

/-- Opcode from `BL.h`. -/
def BL_GET_RDP_STATUS : Nat := 0x54

/-- Opcode from `BL.h`. -/
def BL_GO_TO_ADDR : Nat := 0x55

/-- Opcode from `BL.h`. -/
def BL_FLASH_ERASE : Nat := 0x56

/-- Opcode from `BL.h`. -/
def BL_MEM_WRITE : Nat := 0x57

/-- Opcode from `BL.h`. -/
def BL_EN_RW_PROTECT : Nat := 0x58

/-- Opcode from `BL.h`. -/
def BL_MEM_READ : Nat := 0x59

/-- Opcode from `BL.h`. -/
def BL_READ_SECTOR_STATUS : Nat := 0x5A

/-- Opcode from `BL.h`. -/
def BL_OTP_READ : Nat := 0x5B

/-- Opcode from `BL.h`. -/
def BL_DIS_WR_PROTECT : Nat := 0x5C

/-- STM32 HAL status value `HAL_OK` (vendor header `stm32f4xx_hal_def.h`,
not under `src/`; value is the standard vendor definition). -/
def HAL_OK : Nat := 0

/-- STM32 HAL status value `HAL_ERROR` (vendor header, standard value). -/
def HAL_ERROR : Nat := 1

/-- `FLASH_BASE` for the STM32F407 (vendor device header, standard value). -/
def FLASH_BASE : Nat := 0x08000000

/-- `FLASH_END` for the STM32F407, 1 MiB flash (vendor device header). -/
def FLASH_END : Nat := 0x080FFFFF

/-- `SRAM1_BASE` for the STM32F407 (vendor device header, standard value). -/
def SRAM1_BASE : Nat := 0x20000000

/-- Oracle model of the hardware peripherals the bootloader calls into.
`crcStep` is one `HAL_CRC_Accumulate` step of the CRC unit (state, byte) ↦
new 32-bit accumulator value; `crcInit` is the accumulator value after
`__HAL_CRC_RESET_HANDLE_STATE`; `crcGarbage` is the value of the
uninitialised local `Local_uint8AccCRC` when the accumulate loop runs zero
times (reading it is undefined behaviour in C, so it is an arbitrary model
parameter).  `eraseResult` is the status returned by `HAL_FLASHEx_Erase`,
`programResult addr val` the status returned by
`HAL_FLASH_Program(FLASH_TYPEPROGRAM_BYTE, addr, val)`.  `idcode` is the
32-bit `DBGMCU_IDCODE_REGISTER` value and `rdpWord` the 32-bit
`RDP_USER_OPTION_WORD` value. -/
structure Device where
  crcStep : Nat → Nat → Nat
  crcInit : Nat
  crcGarbage : Nat
  eraseResult : Nat
  programResult : Nat → Nat → Nat
  idcode : Nat
  rdpWord : Nat

/-- One observable action performed by the bootloader code, in program order. -/
inductive Event where
  | uartTx (bytes : List Nat)
  | flashUnlock
  | flashLock
  | flashMassErase
  | flashEraseSectors (firstSector count : Nat)
  | flashProgram (addr val : Nat)
  | memStore (addr val : Nat)
  | gpioLD5 (set : Bool)
  | jump (addr : Nat)
deriving DecidableEq, Repr

/-- Byte read from packet memory at a (possibly negative) offset. -/
def readB (mem : Int → Nat) (i : Int) : Nat := mem i % 256

/-- Little-endian 32-bit read, modelling the `*((uint32_t*)p)` casts. -/
def readWord32 (mem : Int → Nat) (off : Int) : Nat :=
  readB mem off + 256 * readB mem (off + 1) + 65536 * readB mem (off + 2) +
    16777216 * readB mem (off + 3)

/-- `uint8VerifyCRC` from `BL.c`: folds the CRC unit over the data bytes,
then compares the accumulator with the host CRC.  When the data is empty the
loop body never runs and the local accumulator is read uninitialised; the
model returns the arbitrary `crcGarbage` value in that case. -/
def uint8VerifyCRC (dev : Device) (dataArr : List Nat) (hostCRC : Nat) : Nat :=
  let accCRC :=
    if dataArr = [] then dev.crcGarbage % 2 ^ 32
    else dataArr.foldl (fun s b => dev.crcStep s b % 2 ^ 32) (dev.crcInit % 2 ^ 32)
  if accCRC = hostCRC then CRC_SUCCESS else CRC_FAIL

/-- `Local_uint8CmdLen = copy_puint8CmdPacket[0] + 1` (uint8 arithmetic). -/
def cmdLenOf (mem : Int → Nat) : Nat := (readB mem 0 + 1) % 256

/-- Host CRC extracted from `packet + cmdLen - 4` (the pointer offset is
computed in `int`, so it can be negative for very short declared lengths). -/
def hostCRCOf (mem : Int → Nat) : Nat := readWord32 mem ((cmdLenOf mem : Int) - 4)

/-- The `uint8_t` data-length argument `Local_uint8CmdLen - 4` passed to
`uint8VerifyCRC`: computed in `int` then truncated to 8 bits. -/
def crcLenOf (mem : Int → Nat) : Nat := (cmdLenOf mem + 252) % 256

/-- The data bytes actually handed to `uint8VerifyCRC` by every handler. -/
def crcDataOf (mem : Int → Nat) : List Nat :=
  (List.range (crcLenOf mem)).map (fun i => readB mem (i : Int))

/-- The CRC verification result each handler branches on. -/
def crcStatusOf (dev : Device) (mem : Int → Nat) : Nat :=
  uint8VerifyCRC dev (crcDataOf mem) (hostCRCOf mem)

/-- `uint8_ValidateAddress` from `BL.c`. -/
def uint8_ValidateAddress (address : Nat) : Nat :=
  if FLASH_BASE ≤ address ∧ address ≤ FLASH_END then VALID_ADDRESS
  else if SRAM1_BASE ≤ address ∧ address ≤ SRAM1_BASE + 128 * 1024 then VALID_ADDRESS
  else NOT_VALID_ADDRESS

/-- `uint8_tExecute_FlashErase` from `BL.c`: returns the status the function
returns together with the events it performs. -/
def uint8_tExecute_FlashErase (dev : Device) (sectorNumber numberOfSectors : Nat) :
    Nat × List Event :=
  if numberOfSectors > NUMBER_OF_SECTORS ∧ sectorNumber ≠ MASS_ERASE then
    (HAL_ERROR, [])
  else if sectorNumber > NUMBER_OF_SECTORS - 1 ∧ sectorNumber ≠ MASS_ERASE then
    (HAL_ERROR, [])
  else
    let eraseOp :=
      if sectorNumber = MASS_ERASE then Event.flashMassErase
      else
        let remainingSectors := NUMBER_OF_SECTORS - sectorNumber
        let clamped :=
          if numberOfSectors > remainingSectors then remainingSectors else numberOfSectors
        Event.flashEraseSectors sectorNumber clamped
    (dev.eraseResult, [Event.flashUnlock, eraseOp, Event.flashLock])

/-- `uint8_ExecuteMemoryWrite` from `BL.c`.  On the flash path the returned
status starts at `HAL_ERROR` and is overwritten by every
`HAL_FLASH_Program` result in turn (so the final value is the last byte's
status); the loop never breaks early.  On the non-flash path the bytes are
stored directly and the initial `HAL_ERROR` is returned unchanged. -/
def uint8_ExecuteMemoryWrite (dev : Device) (buffer : Nat → Nat) (address len : Nat) :
    Nat × List Event :=
  if FLASH_BASE ≤ address ∧ address ≤ FLASH_END then
    ((List.range len).foldl (fun _ i => dev.programResult (address + i) (buffer i)) HAL_ERROR,
     Event.flashUnlock ::
       ((List.range len).map (fun i => Event.flashProgram (address + i) (buffer i)) ++
         [Event.flashLock]))
  else
    (HAL_ERROR, (List.range len).map (fun i => Event.memStore (address + i) (buffer i)))

/-- The static supported-commands table from `BL_voidHandleGetHelpCmd`. -/
def BL_SupportedCommands : List Nat :=
  [BL_GET_VESRION, BL_GET_HELP, BL_GET_CID, BL_GET_RDP_STATUS, BL_GO_TO_ADDR,
   BL_FLASH_ERASE, BL_MEM_WRITE, BL_EN_RW_PROTECT, BL_MEM_READ,
   BL_READ_SECTOR_STATUS, BL_OTP_READ, BL_DIS_WR_PROTECT]

/-- `BL_voidHandleGetVERCmd` from `BL.c`. -/
def BL_voidHandleGetVERCmd (dev : Device) (mem : Int → Nat) : List Event :=
  if crcStatusOf dev mem = CRC_SUCCESS then
    [Event.uartTx [BL_ACK, 1], Event.uartTx [BL_VERSION]]
  else
    [Event.uartTx [BL_NACK]]

/-- `BL_voidHandleGetHelpCmd` from `BL.c`. -/
def BL_voidHandleGetHelpCmd (dev : Device) (mem : Int → Nat) : List Event :=
  if crcStatusOf dev mem = CRC_SUCCESS then
    [Event.uartTx [BL_ACK, BL_SupportedCommands.length], Event.uartTx BL_SupportedCommands]
  else
    [Event.uartTx [BL_NACK]]

/-- `BL_voidHandleGetCIDcmd` from `BL.c`: transmits the low 12 bits of the
IDCODE register as two little-endian bytes. -/
def BL_voidHandleGetCIDcmd (dev : Device) (mem : Int → Nat) : List Event :=
  if crcStatusOf dev mem = CRC_SUCCESS then
    let cid := dev.idcode &&& 0x0fff
    [Event.uartTx [BL_ACK, 2], Event.uartTx [cid % 256, cid / 256 % 256]]
  else
    [Event.uartTx [BL_NACK]]

/-- `BL_voidHandleGetRDPStatusCmd` from `BL.c`. -/
def BL_voidHandleGetRDPStatusCmd (dev : Device) (mem : Int → Nat) : List Event :=
  if crcStatusOf dev mem = CRC_SUCCESS then
    [Event.uartTx [BL_ACK, 1], Event.uartTx [dev.rdpWord >>> 8 &&& 0xff]]
  else
    [Event.uartTx [BL_NACK]]

/-- `BL_voidHandleGoToAddressCmd` from `BL.c`: sends `ACK(4)`, then one
address-validity byte, then (when valid) jumps to the address with the
Thumb bit set. -/
def BL_voidHandleGoToAddressCmd (dev : Device) (mem : Int → Nat) : List Event :=
  if crcStatusOf dev mem = CRC_SUCCESS then
    let address := readWord32 mem 2
    let addressValidStatus := uint8_ValidateAddress address
    if addressValidStatus = VALID_ADDRESS then
      [Event.uartTx [BL_ACK, 4], Event.uartTx [addressValidStatus],
       Event.jump (address ||| 1)]
    else
      [Event.uartTx [BL_ACK, 4], Event.uartTx [addressValidStatus]]
  else
    [Event.uartTx [BL_NACK]]

/-- `BL_voidHandleFlashEraseCmd` from `BL.c`. -/
def BL_voidHandleFlashEraseCmd (dev : Device) (mem : Int → Nat) : List Event :=
  if crcStatusOf dev mem = CRC_SUCCESS then
    let r := uint8_tExecute_FlashErase dev (readB mem 2) (readB mem 3)
    Event.uartTx [BL_ACK, 1] :: Event.gpioLD5 true ::
      (r.2 ++ [Event.gpioLD5 false, Event.uartTx [r.1]])
  else
    [Event.uartTx [BL_NACK]]

/-- `BL_voidHandleMemWriteCmd` from `BL.c`. -/
def BL_voidHandleMemWriteCmd (dev : Device) (mem : Int → Nat) : List Event :=
  if crcStatusOf dev mem = CRC_SUCCESS then
    let address := readWord32 mem 2
    let addressValidStatus := uint8_ValidateAddress address
    if addressValidStatus = VALID_ADDRESS then
      let payloadLength := readB mem 6
      let r := uint8_ExecuteMemoryWrite dev (fun i => readB mem (7 + (i : Int)))
        address payloadLength
      Event.uartTx [BL_ACK, 1] :: (r.2 ++ [Event.uartTx [r.1]])
    else
      [Event.uartTx [BL_ACK, 1], Event.uartTx [WRITING_ERROR]]
  else
    [Event.uartTx [BL_NACK]]

/-- `BL_voidHandleEnRWProtectCmd` from `BL.c` (stub: ACK only). -/
def BL_voidHandleEnRWProtectCmd (dev : Device) (mem : Int → Nat) : List Event :=
  if crcStatusOf dev mem = CRC_SUCCESS then [Event.uartTx [BL_ACK, 1]]
  else [Event.uartTx [BL_NACK]]

/-- `BL_voidHandleMemReadCmd` from `BL.c` (stub: ACK only). -/
def BL_voidHandleMemReadCmd (dev : Device) (mem : Int → Nat) : List Event :=
  if crcStatusOf dev mem = CRC_SUCCESS then [Event.uartTx [BL_ACK, 1]]
  else [Event.uartTx [BL_NACK]]

/-- `BL_voidHandleReadSectorStatusCmd` from `BL.c` (stub: ACK only). -/
def BL_voidHandleReadSectorStatusCmd (dev : Device) (mem : Int → Nat) : List Event :=
  if crcStatusOf dev mem = CRC_SUCCESS then [Event.uartTx [BL_ACK, 1]]
  else [Event.uartTx [BL_NACK]]

/-- `BL_voidHandleOTPReadCmd` from `BL.c` (stub: ACK only). -/
def BL_voidHandleOTPReadCmd (dev : Device) (mem : Int → Nat) : List Event :=
  if crcStatusOf dev mem = CRC_SUCCESS then [Event.uartTx [BL_ACK, 1]]
  else [Event.uartTx [BL_NACK]]

/-- `BL_voidHandleDisWRProtectCmd` from `BL.c` (stub: ACK only). -/
def BL_voidHandleDisWRProtectCmd (dev : Device) (mem : Int → Nat) : List Event :=
  if crcStatusOf dev mem = CRC_SUCCESS then [Event.uartTx [BL_ACK, 1]]
  else [Event.uartTx [BL_NACK]]

/-- Concrete device oracle for evaluations: the CRC unit sums the bytes it
accumulates, every flash operation reports `HAL_OK`. -/
def sumDev : Device :=
  { crcStep := fun s b => s + b, crcInit := 0, crcGarbage := 0,
    eraseResult := HAL_OK, programResult := fun _ _ => HAL_OK,
    idcode := 0x10006413, rdpWord := 0x0000AA00 }

/-- A packet whose declared length is 5 (total 6 bytes, all data zero except
the length byte); under `sumDev` its CRC check fails (accumulated 5, host 0). -/
def failMem : Int → Nat := fun i => if i = 0 then 5 else 0

/-- A go-to-address packet `[9, 0x55, 0,0,0,0, 94,0,0,0]` whose host CRC
word (94) equals the byte sum of the covered prefix, so the CRC check
passes under `sumDev`; the target address is 0 (invalid). -/
def goMem : Int → Nat := fun i =>
  if i = 0 then 9 else if i = 1 then 0x55 else if i = 6 then 94 else 0

/-- Device oracle whose byte-program operation fails exactly at
`FLASH_BASE` and succeeds at every other address. -/
def maskDev : Device :=
  { sumDev with programResult := fun addr _ => if addr = FLASH_BASE then HAL_ERROR else HAL_OK }

/-- Device oracle whose uninitialised CRC accumulator happens to hold
0x5103, the host CRC word read from the short packet `shortMem`. -/
def shortDev : Device := { sumDev with crcGarbage := 0x5103 }

/-- A 4-byte packet `[0x03, 0x51, 0, 0]`: declared length 3, total length 4,
shorter than the 5-byte minimum frame (opcode + 4 CRC bytes). -/
def shortMem : Int → Nat := fun i => if i = 0 then 3 else if i = 1 then 0x51 else 0

/-- All bytes sent over the UART in a trace, in order. -/
def txBytes : List Event → List Nat
  | [] => []
  | Event.uartTx bs :: rest => bs ++ txBytes rest
  | _ :: rest => txBytes rest

/-- When a trace starts with a 2-byte ACK frame: the declared reply length
paired with the number of bytes actually transmitted afterwards. -/
def ackReply : List Event → Option (Nat × Nat)
  | Event.uartTx [a, l] :: rest =>
      if a = BL_ACK then some (l, (txBytes rest).length) else none
  | _ => none

/-- Whether an event changes the flash controller lock state. -/
def isLockEvent : Event → Bool
  | Event.flashUnlock => true
  | Event.flashLock => true
  | _ => false

/-- Lock-state machine for the flash controller: `true` means locked; the
controller starts locked. -/
def lockStep (st : Bool) (e : Event) : Bool :=
  match e with
  | Event.flashUnlock => false
  | Event.flashLock => true
  | _ => st

/-- The flash controller is locked once the whole trace has run. -/
def lockedAtEnd (tr : List Event) : Bool := tr.foldl lockStep true

/-- The trace is exactly one unlock, then a body that never touches the
lock, then a final lock. -/
def properLockScope (tr : List Event) : Bool :=
  match tr with
  | Event.flashUnlock :: rest =>
      decide (rest.getLast? = some Event.flashLock) &&
        rest.dropLast.all fun e => !isLockEvent e
  | _ => false

theorem txBytes_append (l1 l2 : List Event) :
    txBytes (l1 ++ l2) = txBytes l1 ++ txBytes l2 := by
  induction l1 with
  | nil => rfl
  | cons e rest ih => cases e <;> simp [txBytes, ih]

theorem txBytes_eraseEvents (dev : Device) (sn c : Nat) :
    txBytes (uint8_tExecute_FlashErase dev sn c).2 = [] := by
  unfold uint8_tExecute_FlashErase
  split_ifs <;> rfl

theorem txBytes_map_flashProgram (address : Nat) (buffer : Nat → Nat) (l : List Nat) :
    txBytes (l.map fun i => Event.flashProgram (address + i) (buffer i)) = [] := by
  induction l with
  | nil => rfl
  | cons x xs ih => simpa [txBytes] using ih

theorem txBytes_map_memStore (address : Nat) (buffer : Nat → Nat) (l : List Nat) :
    txBytes (l.map fun i => Event.memStore (address + i) (buffer i)) = [] := by
  induction l with
  | nil => rfl
  | cons x xs ih => simpa [txBytes] using ih

theorem txBytes_writeEvents (dev : Device) (buffer : Nat → Nat) (address len : Nat) :
    txBytes (uint8_ExecuteMemoryWrite dev buffer address len).2 = [] := by
  unfold uint8_ExecuteMemoryWrite
  split_ifs
  · simp [txBytes, txBytes_append, txBytes_map_flashProgram]
  · simp [txBytes_map_memStore]

theorem foldl_lockStep_eraseEvents (dev : Device) (sn c : Nat) :
    ((uint8_tExecute_FlashErase dev sn c).2).foldl lockStep true = true := by
  unfold uint8_tExecute_FlashErase
  split_ifs <;> rfl

theorem foldl_lockStep_writeEvents (dev : Device) (buffer : Nat → Nat) (address len : Nat) :
    ((uint8_ExecuteMemoryWrite dev buffer address len).2).foldl lockStep true = true := by
  unfold uint8_ExecuteMemoryWrite
  split_ifs
  · simp only [List.foldl_cons, List.foldl_append]
    rfl
  · have : ∀ (l : List Nat) (st : Bool),
        (l.map fun i => Event.memStore (address + i) (buffer i)).foldl lockStep st = st := by
      intro l
      induction l with
      | nil => intro st; rfl
      | cons x xs ih => intro st; simpa [lockStep] using ih st
    exact this _ true

/-- Claim C1: whenever CRC verification fails, each of the twelve command
handlers transmits exactly the single NACK byte 0x7F and performs no other
event at all (no flash erase, no flash program, no memory store). -/
theorem handlers_crcFail_nack_only (dev : Device) (mem : Int → Nat)
    (h : crcStatusOf dev mem = CRC_FAIL) :
    BL_voidHandleGetVERCmd dev mem = [Event.uartTx [BL_NACK]] ∧
    BL_voidHandleGetHelpCmd dev mem = [Event.uartTx [BL_NACK]] ∧
    BL_voidHandleGetCIDcmd dev mem = [Event.uartTx [BL_NACK]] ∧
    BL_voidHandleGetRDPStatusCmd dev mem = [Event.uartTx [BL_NACK]] ∧
    BL_voidHandleGoToAddressCmd dev mem = [Event.uartTx [BL_NACK]] ∧
    BL_voidHandleFlashEraseCmd dev mem = [Event.uartTx [BL_NACK]] ∧
    BL_voidHandleMemWriteCmd dev mem = [Event.uartTx [BL_NACK]] ∧
    BL_voidHandleEnRWProtectCmd dev mem = [Event.uartTx [BL_NACK]] ∧
    BL_voidHandleMemReadCmd dev mem = [Event.uartTx [BL_NACK]] ∧
    BL_voidHandleReadSectorStatusCmd dev mem = [Event.uartTx [BL_NACK]] ∧
    BL_voidHandleOTPReadCmd dev mem = [Event.uartTx [BL_NACK]] ∧
    BL_voidHandleDisWRProtectCmd dev mem = [Event.uartTx [BL_NACK]] := by
  have hne : ¬ crcStatusOf dev mem = CRC_SUCCESS := by
    simp [h, CRC_FAIL, CRC_SUCCESS]
  simp [BL_voidHandleGetVERCmd, BL_voidHandleGetHelpCmd, BL_voidHandleGetCIDcmd,
    BL_voidHandleGetRDPStatusCmd, BL_voidHandleGoToAddressCmd,
    BL_voidHandleFlashEraseCmd, BL_voidHandleMemWriteCmd,
    BL_voidHandleEnRWProtectCmd, BL_voidHandleMemReadCmd,
    BL_voidHandleReadSectorStatusCmd, BL_voidHandleOTPReadCmd,
    BL_voidHandleDisWRProtectCmd, hne]

/-- Witness for C1 at the concrete failing packet `failMem` under `sumDev`. -/
theorem handlers_crcFail_nack_only_witness :
    crcStatusOf sumDev failMem = CRC_FAIL ∧
    (BL_voidHandleGetVERCmd sumDev failMem = [Event.uartTx [BL_NACK]] ∧
     BL_voidHandleGetHelpCmd sumDev failMem = [Event.uartTx [BL_NACK]] ∧
     BL_voidHandleGetCIDcmd sumDev failMem = [Event.uartTx [BL_NACK]] ∧
     BL_voidHandleGetRDPStatusCmd sumDev failMem = [Event.uartTx [BL_NACK]] ∧
     BL_voidHandleGoToAddressCmd sumDev failMem = [Event.uartTx [BL_NACK]] ∧
     BL_voidHandleFlashEraseCmd sumDev failMem = [Event.uartTx [BL_NACK]] ∧
     BL_voidHandleMemWriteCmd sumDev failMem = [Event.uartTx [BL_NACK]] ∧
     BL_voidHandleEnRWProtectCmd sumDev failMem = [Event.uartTx [BL_NACK]] ∧
     BL_voidHandleMemReadCmd sumDev failMem = [Event.uartTx [BL_NACK]] ∧
     BL_voidHandleReadSectorStatusCmd sumDev failMem = [Event.uartTx [BL_NACK]] ∧
     BL_voidHandleOTPReadCmd sumDev failMem = [Event.uartTx [BL_NACK]] ∧
     BL_voidHandleDisWRProtectCmd sumDev failMem = [Event.uartTx [BL_NACK]]) :=
  ⟨by decide, handlers_crcFail_nack_only sumDev failMem (by decide)⟩

/-- Counterexample to claim C2 as stated: the address
`SRAM1_BASE + 128*1024` is accepted as valid by the code, yet it lies
neither in `[FLASH_BASE, FLASH_END]` nor in the half-open SRAM range
`[SRAM1_BASE, SRAM1_BASE + 128*1024)` the claim describes. -/
theorem validateAddress_sram_upper_bound_counterexample :
    uint8_ValidateAddress (SRAM1_BASE + 128 * 1024) = VALID_ADDRESS ∧
    ¬ ((FLASH_BASE ≤ SRAM1_BASE + 128 * 1024 ∧ SRAM1_BASE + 128 * 1024 ≤ FLASH_END) ∨
       (SRAM1_BASE ≤ SRAM1_BASE + 128 * 1024 ∧
        SRAM1_BASE + 128 * 1024 < SRAM1_BASE + 128 * 1024)) := by
  decide

/-- Claim C2 (amended): for every 32-bit address, `uint8_ValidateAddress`
returns `VALID_ADDRESS` exactly on the closed flash range
`[FLASH_BASE, FLASH_END]` and the closed SRAM range
`[SRAM1_BASE, SRAM1_BASE + 128*1024]` (both endpoints included), and
`NOT_VALID_ADDRESS` everywhere else. -/
theorem uint8_ValidateAddress_spec (a : Nat) (h : a < 2 ^ 32) :
    uint8_ValidateAddress a =
      if (FLASH_BASE ≤ a ∧ a ≤ FLASH_END) ∨
         (SRAM1_BASE ≤ a ∧ a ≤ SRAM1_BASE + 128 * 1024) then VALID_ADDRESS
      else NOT_VALID_ADDRESS := by
  simp only [uint8_ValidateAddress, VALID_ADDRESS, NOT_VALID_ADDRESS,
    FLASH_BASE, FLASH_END, SRAM1_BASE]
  split_ifs <;> first | rfl | omega

/-- Witness for C2 at the concrete address `SRAM1_BASE`. -/
theorem uint8_ValidateAddress_spec_witness :
    SRAM1_BASE < 2 ^ 32 ∧
    uint8_ValidateAddress SRAM1_BASE =
      if (FLASH_BASE ≤ SRAM1_BASE ∧ SRAM1_BASE ≤ FLASH_END) ∨
         (SRAM1_BASE ≤ SRAM1_BASE ∧ SRAM1_BASE ≤ SRAM1_BASE + 128 * 1024) then VALID_ADDRESS
      else NOT_VALID_ADDRESS :=
  ⟨by decide, uint8_ValidateAddress_spec SRAM1_BASE (by decide)⟩

/-- Counterexample to claim C4 as stated: the request
`sector_number = 0, sector_count = 255` is rejected by the first parameter
check with `HAL_ERROR` and performs no event at all — it is not clamped to
the 12 available sectors and does not report success. -/
theorem flashErase_overlarge_count_rejected :
    uint8_tExecute_FlashErase sumDev 0 255 = (HAL_ERROR, []) ∧ HAL_ERROR ≠ HAL_OK := by
  decide

/-- Claim C4 (amended): clamping only happens for requests whose
`sector_count` is at most the 12 available sectors.  For an in-range
`sector_number` with `sector_count ≤ 12` but
`sector_number + sector_count > 12`, the executor clamps the count down to
`12 - sector_number`, erases exactly the remaining sectors and forwards the
HAL erase status; a non-mass request with `sector_count > 12` (such as
`sector_number = 0, sector_count = 255`) is instead rejected with
`HAL_ERROR` before any clamping. -/
theorem flashErase_clamps_within_limit (dev : Device) (sn c : Nat)
    (hsn : sn < NUMBER_OF_SECTORS) (hc : c ≤ NUMBER_OF_SECTORS)
    (hov : NUMBER_OF_SECTORS - sn < c) :
    uint8_tExecute_FlashErase dev sn c =
      (dev.eraseResult,
       [Event.flashUnlock, Event.flashEraseSectors sn (NUMBER_OF_SECTORS - sn),
        Event.flashLock]) := by
  simp only [uint8_tExecute_FlashErase, NUMBER_OF_SECTORS, MASS_ERASE] at *
  split_ifs <;> first | rfl | (exfalso; omega)

/-- Witness for C4 at `sector_number = 10, sector_count = 5` (clamped to 2). -/
theorem flashErase_clamps_within_limit_witness :
    10 < NUMBER_OF_SECTORS ∧ 5 ≤ NUMBER_OF_SECTORS ∧ NUMBER_OF_SECTORS - 10 < 5 ∧
    uint8_tExecute_FlashErase sumDev 10 5 =
      (HAL_OK, [Event.flashUnlock, Event.flashEraseSectors 10 2, Event.flashLock]) :=
  ⟨by decide, by decide, by decide,
   flashErase_clamps_within_limit sumDev 10 5 (by decide) (by decide) (by decide)⟩

/-- Claim C7: a request with `sector_number = MASS_ERASE` passes both
parameter-validation checks for every `sector_count` value and performs a
single mass erase wrapped in unlock/lock, forwarding the HAL status. -/
theorem flashErase_massErase_always (dev : Device) (c : Nat) :
    uint8_tExecute_FlashErase dev MASS_ERASE c =
      (dev.eraseResult, [Event.flashUnlock, Event.flashMassErase, Event.flashLock]) := by
  simp [uint8_tExecute_FlashErase]

/-- Claim C8: a non-mass request whose `sector_number` is at least the
total sector count returns `HAL_ERROR` and performs no event at all — in
particular no erase, no flash unlock and no flash lock. -/
theorem flashErase_outOfRange_sector_rejected (dev : Device) (sn c : Nat)
    (hsn : NUMBER_OF_SECTORS ≤ sn) (hmass : sn ≠ MASS_ERASE) :
    uint8_tExecute_FlashErase dev sn c = (HAL_ERROR, []) := by
  simp only [uint8_tExecute_FlashErase, NUMBER_OF_SECTORS, MASS_ERASE] at *
  split_ifs <;> first | rfl | (exfalso; omega)

/-- Witness for C8 at `sector_number = 12, sector_count = 1`. -/
theorem flashErase_outOfRange_sector_rejected_witness :
    NUMBER_OF_SECTORS ≤ 12 ∧ (12 : Nat) ≠ MASS_ERASE ∧
    uint8_tExecute_FlashErase sumDev 12 1 = (HAL_ERROR, []) :=
  ⟨by decide, by decide, flashErase_outOfRange_sector_rejected sumDev 12 1 (by decide) (by decide)⟩

/-- Claim C10: on the non-flash path the executor stores every requested
byte but returns its initial `HAL_ERROR` status unchanged, and a flash-path
write of length zero also returns the initial `HAL_ERROR`. -/
theorem memWrite_initial_status_returned (dev : Device) (buffer : Nat → Nat)
    (a b len : Nat) (ha : ¬ (FLASH_BASE ≤ a ∧ a ≤ FLASH_END))
    (hb1 : FLASH_BASE ≤ b) (hb2 : b ≤ FLASH_END) :
    uint8_ExecuteMemoryWrite dev buffer a len =
      (HAL_ERROR, (List.range len).map (fun i => Event.memStore (a + i) (buffer i))) ∧
    uint8_ExecuteMemoryWrite dev buffer b 0 =
      (HAL_ERROR, [Event.flashUnlock, Event.flashLock]) := by
  constructor
  · simp [uint8_ExecuteMemoryWrite, ha]
  · simp [uint8_ExecuteMemoryWrite, hb1, hb2]

/-- Claim C3 evaluated at a failing input: for the 4-byte packet
`[0x03, 0x51, 0, 0]` (total declared length 4, below the 5-byte minimum)
no handler rejects the frame — the code immediately computes
`packet[0] + 1` and the wrapped CRC length 0, reads the uninitialised CRC
accumulator, and when that garbage value happens to equal the host CRC
word (0x5103 here) the get-version handler answers with an ACK and the
version byte instead of the NACK the claim requires. -/
theorem short_packet_not_rejected :
    cmdLenOf shortMem = 4 ∧
    BL_voidHandleGetVERCmd shortDev shortMem =
      [Event.uartTx [BL_ACK, 1], Event.uartTx [BL_VERSION]] := by
  decide

/-- Counterexample to claim C5 as stated: on a CRC-passing go-to-address
packet the handler declares a reply length of 4 in the ACK frame yet
transmits only 1 byte (the address-validity indicator) afterwards. -/
theorem goToAddress_ack_length_counterexample :
    ackReply (BL_voidHandleGoToAddressCmd sumDev goMem) = some (4, 1) ∧ (4 : Nat) ≠ 1 := by
  decide

/-- Claim C5 (amended): on every CRC-passing packet, the get-version,
get-help, get-chip-id, get-RDP-status, flash-erase and mem-write handlers
declare a reply length equal to the number of bytes transmitted after the
ACK; the go-to-address handler instead declares 4 but transmits 1 byte,
and the five stub handlers declare 1 but transmit 0 bytes. -/
theorem ack_declared_length (dev : Device) (mem : Int → Nat)
    (h : crcStatusOf dev mem = CRC_SUCCESS) :
    ackReply (BL_voidHandleGetVERCmd dev mem) = some (1, 1) ∧
    ackReply (BL_voidHandleGetHelpCmd dev mem) = some (12, 12) ∧
    ackReply (BL_voidHandleGetCIDcmd dev mem) = some (2, 2) ∧
    ackReply (BL_voidHandleGetRDPStatusCmd dev mem) = some (1, 1) ∧
    ackReply (BL_voidHandleFlashEraseCmd dev mem) = some (1, 1) ∧
    ackReply (BL_voidHandleMemWriteCmd dev mem) = some (1, 1) ∧
    ackReply (BL_voidHandleGoToAddressCmd dev mem) = some (4, 1) ∧
    ackReply (BL_voidHandleEnRWProtectCmd dev mem) = some (1, 0) ∧
    ackReply (BL_voidHandleMemReadCmd dev mem) = some (1, 0) ∧
    ackReply (BL_voidHandleReadSectorStatusCmd dev mem) = some (1, 0) ∧
    ackReply (BL_voidHandleOTPReadCmd dev mem) = some (1, 0) ∧
    ackReply (BL_voidHandleDisWRProtectCmd dev mem) = some (1, 0) := by
  refine ⟨?_, ?_, ?_, ?_, ?_, ?_, ?_, ?_, ?_, ?_, ?_, ?_⟩
  · simp [BL_voidHandleGetVERCmd, h, ackReply, txBytes, BL_ACK]
  · simp [BL_voidHandleGetHelpCmd, h, ackReply, txBytes, BL_ACK, BL_SupportedCommands]
  · simp [BL_voidHandleGetCIDcmd, h, ackReply, txBytes, BL_ACK]
  · simp [BL_voidHandleGetRDPStatusCmd, h, ackReply, txBytes, BL_ACK]
  · simp [BL_voidHandleFlashEraseCmd, h, ackReply, txBytes, txBytes_append,
      txBytes_eraseEvents, BL_ACK]
  · simp only [BL_voidHandleMemWriteCmd, h]
    split_ifs <;>
      simp [ackReply, txBytes, txBytes_append, txBytes_writeEvents, BL_ACK]
  · simp only [BL_voidHandleGoToAddressCmd, h]
    split_ifs <;> simp [ackReply, txBytes, BL_ACK]
  · simp [BL_voidHandleEnRWProtectCmd, h, ackReply, txBytes, BL_ACK]
  · simp [BL_voidHandleMemReadCmd, h, ackReply, txBytes, BL_ACK]
  · simp [BL_voidHandleReadSectorStatusCmd, h, ackReply, txBytes, BL_ACK]
  · simp [BL_voidHandleOTPReadCmd, h, ackReply, txBytes, BL_ACK]
  · simp [BL_voidHandleDisWRProtectCmd, h, ackReply, txBytes, BL_ACK]

/-- Witness for C5 at the CRC-passing packet `goMem` under `sumDev`. -/
theorem ack_declared_length_witness :
    crcStatusOf sumDev goMem = CRC_SUCCESS ∧
    (ackReply (BL_voidHandleGetVERCmd sumDev goMem) = some (1, 1) ∧
     ackReply (BL_voidHandleGetHelpCmd sumDev goMem) = some (12, 12) ∧
     ackReply (BL_voidHandleGetCIDcmd sumDev goMem) = some (2, 2) ∧
     ackReply (BL_voidHandleGetRDPStatusCmd sumDev goMem) = some (1, 1) ∧
     ackReply (BL_voidHandleFlashEraseCmd sumDev goMem) = some (1, 1) ∧
     ackReply (BL_voidHandleMemWriteCmd sumDev goMem) = some (1, 1) ∧
     ackReply (BL_voidHandleGoToAddressCmd sumDev goMem) = some (4, 1) ∧
     ackReply (BL_voidHandleEnRWProtectCmd sumDev goMem) = some (1, 0) ∧
     ackReply (BL_voidHandleMemReadCmd sumDev goMem) = some (1, 0) ∧
     ackReply (BL_voidHandleReadSectorStatusCmd sumDev goMem) = some (1, 0) ∧
     ackReply (BL_voidHandleOTPReadCmd sumDev goMem) = some (1, 0) ∧
     ackReply (BL_voidHandleDisWRProtectCmd sumDev goMem) = some (1, 0)) :=
  ⟨by decide, ack_declared_length sumDev goMem (by decide)⟩

/-- Counterexample to claim C6 as stated: with a byte-program oracle that
fails exactly at `FLASH_BASE`, a 2-byte flash write programs the second
byte anyway and returns `HAL_OK` — the executor neither stops after the
failed first byte nor reports the failure. -/
theorem memWrite_failure_masked_counterexample :
    maskDev.programResult FLASH_BASE 171 = HAL_ERROR ∧
    uint8_ExecuteMemoryWrite maskDev (fun _ => 171) FLASH_BASE 2 =
      (HAL_OK,
       [Event.flashUnlock, Event.flashProgram FLASH_BASE 171,
        Event.flashProgram (FLASH_BASE + 1) 171, Event.flashLock]) := by
  decide

/-- Claim C6 (amended): on the flash path the executor always programs all
`len` bytes and returns the status of the last byte-program operation, so
an earlier byte's failure is masked by a later byte's success rather than
stopping the loop. -/
theorem memWrite_status_is_last_byte (dev : Device) (buffer : Nat → Nat)
    (address len : Nat) (h1 : FLASH_BASE ≤ address) (h2 : address ≤ FLASH_END)
    (hlen : 0 < len) :
    uint8_ExecuteMemoryWrite dev buffer address len =
      (dev.programResult (address + (len - 1)) (buffer (len - 1)),
       Event.flashUnlock ::
         ((List.range len).map (fun i => Event.flashProgram (address + i) (buffer i)) ++
           [Event.flashLock])) := by
  obtain ⟨k, rfl⟩ : ∃ k, len = k + 1 := ⟨len - 1, by omega⟩
  simp only [uint8_ExecuteMemoryWrite, if_pos (And.intro h1 h2)]
  rw [List.range_succ, List.foldl_append]
  simp

/-- Witness for C6 at `maskDev`, `FLASH_BASE`, two bytes of 0xAB: the
returned status is that of the second byte (`HAL_OK`) although the first
byte's program operation failed. -/
theorem memWrite_status_is_last_byte_witness :
    FLASH_BASE ≤ FLASH_BASE ∧ FLASH_BASE ≤ FLASH_END ∧ 0 < 2 ∧
    uint8_ExecuteMemoryWrite maskDev (fun _ => 171) FLASH_BASE 2 =
      (maskDev.programResult (FLASH_BASE + 1) 171,
       Event.flashUnlock ::
         ((List.range 2).map (fun i => Event.flashProgram (FLASH_BASE + i) 171) ++
           [Event.flashLock])) :=
  ⟨by decide, by decide, by decide,
   memWrite_status_is_last_byte maskDev (fun _ => 171) FLASH_BASE 2
     (by decide) (by decide) (by decide)⟩

/-- Claim C9: whenever the erase executor reaches the erase step, and on
every flash-path memory write, the event trace is exactly one
`HAL_FLASH_Unlock` immediately before the erase/program sequence and one
`HAL_FLASH_Lock` after it, unconditionally (the trace does not depend on
the HAL status results); and the flash-erase and mem-write handlers leave
the flash controller locked at the end of every invocation. -/
theorem flash_lock_discipline (dev : Device) (sn c address len : Nat)
    (buffer : Nat → Nat) (mem : Int → Nat)
    (hreach : (uint8_tExecute_FlashErase dev sn c).2 ≠ [])
    (h1 : FLASH_BASE ≤ address) (h2 : address ≤ FLASH_END) :
    properLockScope (uint8_tExecute_FlashErase dev sn c).2 = true ∧
    properLockScope (uint8_ExecuteMemoryWrite dev buffer address len).2 = true ∧
    lockedAtEnd (BL_voidHandleFlashEraseCmd dev mem) = true ∧
    lockedAtEnd (BL_voidHandleMemWriteCmd dev mem) = true := by
  refine ⟨?_, ?_, ?_, ?_⟩
  · unfold uint8_tExecute_FlashErase at hreach ⊢
    split_ifs at hreach ⊢ <;> first | exact absurd rfl hreach | rfl
  · unfold uint8_ExecuteMemoryWrite
    rw [if_pos (And.intro h1 h2)]
    have hall : (((List.range len).map fun i =>
        Event.flashProgram (address + i) (buffer i)).all fun e => !isLockEvent e) = true := by
      rw [List.all_eq_true]
      intro e he
      rw [List.mem_map] at he
      obtain ⟨i, _, rfl⟩ := he
      rfl
    simp [properLockScope, List.getLast?_concat, List.dropLast_concat, hall]
  · unfold BL_voidHandleFlashEraseCmd lockedAtEnd
    split_ifs
    · simp only [List.foldl_cons, List.foldl_append]
      exact foldl_lockStep_eraseEvents dev (readB mem 2) (readB mem 3)
    · rfl
  · unfold BL_voidHandleMemWriteCmd lockedAtEnd
    split_ifs
    · by_cases hv : uint8_ValidateAddress (readWord32 mem 2) = VALID_ADDRESS
      · simp only [hv, eq_self_iff_true, if_true, List.foldl_cons, List.foldl_append]
        exact foldl_lockStep_writeEvents dev _ _ _
      · simp only [if_neg hv]
        rfl
    · rfl

/-- Witness for C9 at the erase request `(0, 1)`, a 2-byte write at
`FLASH_BASE`, and the CRC-passing packet `goMem`. -/
theorem flash_lock_discipline_witness :
    (uint8_tExecute_FlashErase sumDev 0 1).2 ≠ [] ∧
    FLASH_BASE ≤ FLASH_BASE ∧ FLASH_BASE ≤ FLASH_END ∧
    (properLockScope (uint8_tExecute_FlashErase sumDev 0 1).2 = true ∧
     properLockScope (uint8_ExecuteMemoryWrite sumDev (fun _ => 7) FLASH_BASE 2).2 = true ∧
     lockedAtEnd (BL_voidHandleFlashEraseCmd sumDev goMem) = true ∧
     lockedAtEnd (BL_voidHandleMemWriteCmd sumDev goMem) = true) :=
  ⟨by decide, by decide, by decide,
   flash_lock_discipline sumDev 0 1 FLASH_BASE 2 (fun _ => 7) goMem
     (by decide) (by decide) (by decide)⟩

/-- Witness for C10 at SRAM target `SRAM1_BASE` with two bytes, and a
zero-length flash write at `FLASH_BASE`. -/
theorem memWrite_initial_status_returned_witness :
    ¬ (FLASH_BASE ≤ SRAM1_BASE ∧ SRAM1_BASE ≤ FLASH_END) ∧
    FLASH_BASE ≤ FLASH_BASE ∧ FLASH_BASE ≤ FLASH_END ∧
    (uint8_ExecuteMemoryWrite sumDev (fun i => i + 40) SRAM1_BASE 2 =
      (HAL_ERROR, [Event.memStore SRAM1_BASE 40, Event.memStore (SRAM1_BASE + 1) 41]) ∧
     uint8_ExecuteMemoryWrite sumDev (fun i => i + 40) FLASH_BASE 0 =
      (HAL_ERROR, [Event.flashUnlock, Event.flashLock])) :=
  ⟨by decide, by decide, by decide,
   memWrite_initial_status_returned sumDev (fun i => i + 40) SRAM1_BASE FLASH_BASE 2
     (by decide) (by decide) (by decide)⟩

end BL
